import Mathlib

/-!
Verification of the AdapAD multivariate streaming anomaly detector
(src/main.py and src/config.py) against its natural-language specification.

The per-sample pipeline of AdapAD.is_anomalous, the buffer cleaning step,
the normalizer and the startup configuration are embedded as executable
Lean functions over exact rationals.  The forecasting model and the
threshold-generator model are external collaborators of the core
(src imports learning_models, whose code is not part of the core): they
appear here as an abstract pair of functions, and the development tracks
which of them each step invokes.  The buffer classes live in the missing
supporting_components module; they are modelled from the spec as plain
lists with append, length, tail and prune-to-length on the most recent
elements.
-/

namespace AdapAD

/-- Modelled from the spec: the SlidingWindowBuffer tail operation of the
missing supporting_components module (get_tail in the source), which
returns the up-to-n most recent items in original order, all of them when
fewer than n exist. -/
def tailN {α : Type} (n : Nat) (xs : List α) : List α :=
  xs.drop (xs.length - n)

/-- Static configuration of the detector: the per-feature value ranges of
value_range_config (used both by the normalizer and, via
NormalValueRangeDb.set in AdapAD.__init__, as the sensor plausibility
ranges), the per-feature parameter thresholds, the lookback length and the
static system threshold. -/
structure Cfg where
  ranges : List (ℚ × ℚ)
  paramThresholds : List ℚ
  lookback_len : Nat
  system_threshold : ℚ

/-- Mutable buffers owned by the controller.  Modelled from the spec:
DataSubject, PredictedNormalDataDb, AnomalousThresholdDb and
PredictionErrorDb of the missing supporting_components module are ordered
append-only sequences; anomalies is the plain Python list self.anomalies. -/
structure St where
  observed : List (List ℚ)
  predicted : List (List ℚ)
  thresholds : List ℚ
  predictiveErrors : List ℚ
  anomalies : List Nat

/-- The two external models of src/learning_models, reduced to their pure
outputs: predict maps a lookback window of normalized vectors to a
predicted vector, generate maps a window of past aggregate errors (and the
system threshold, passed by the source) to a generated threshold. -/
structure Models where
  predict : List (List ℚ) → List ℚ
  generate : List ℚ → ℚ → ℚ

/-- Clipping to the unit interval, as np.clip(x, 0, 1) in
AdapAD.__normalize_data. -/
def clip01 (x : ℚ) : ℚ :=
  min (max x 0) 1

/-- Per-feature min-max scaling with clipping, the body of the loop of
AdapAD.__normalize_data for one feature with range r. -/
def normalizeAt (r : ℚ × ℚ) (v : ℚ) : ℚ :=
  clip01 ((v - r.1) / (r.2 - r.1))

/-- AdapAD.__normalize_data: scale every component by its feature range
and clip to the unit interval. -/
def normalize_data (cfg : Cfg) (data : List ℚ) : List ℚ :=
  List.zipWith normalizeAt cfg.ranges data

/-- Per-feature inverse scaling without clipping, the body of
AdapAD.__reverse_normalized_data for one feature with range r. -/
def denormAt (r : ℚ × ℚ) (x : ℚ) : ℚ :=
  x * (r.2 - r.1) + r.1

/-- AdapAD.__reverse_normalized_data: look up the range of the feature at
the given index and invert the unclipped scaling. -/
def reverse_normalized_data (cfg : Cfg) (x : ℚ) (i : Nat) : ℚ :=
  denormAt (cfg.ranges.getD i (0, 0)) x

/-- AdapAD.is_inside_range: denormalize the value and test it against the
sensor range of the feature, inclusive on both bounds.  The sensor range
table is filled from value_range_config in AdapAD.__init__, hence it
coincides with cfg.ranges. -/
def is_inside_range (cfg : Cfg) (val : ℚ) (i : Nat) : Bool :=
  let ov := reverse_normalized_data cfg val i
  decide ((cfg.ranges.getD i (0, 0)).1 ≤ ov) && decide (ov ≤ (cfg.ranges.getD i (0, 0)).2)

/-- The out-of-range gate of AdapAD.is_anomalous (the loop at lines
163-168 of src/main.py): for some index i of the sample, the normalized
vector component at i fails is_inside_range. -/
def rangeGateFails (cfg : Cfg) (vals : List ℚ) : Bool :=
  (List.range vals.length).any fun i =>
    ! is_inside_range cfg ((normalize_data cfg vals).getD i 0) i

/-- Result of one call of AdapAD.is_anomalous: the returned verdict, the
successor buffer state, and which external calls the step performed. -/
structure StepResult where
  verdict : Bool
  st : St
  predictionMade : Bool
  predictorUpdated : Bool
  generatorUpdated : Bool
  appliedThreshold : Option ℚ

/-- Local fault recovery of AdapAD.is_anomalous: record an anomaly at the
current ObservationWindow length, then append a zero placeholder vector of
the sample length (np.zeros_like of the parsed sample). -/
def zeroRecovery (s : St) (n : Nat) : St :=
  { s with
    anomalies := s.anomalies ++ [s.observed.length],
    observed := s.observed ++ [List.replicate n (0 : ℚ)] }

/-- The forced-anomalous early return of AdapAD.is_anomalous taken by the
missing-value check and by the out-of-range check: no model is invoked. -/
def faultStep (s : St) (n : Nat) : StepResult :=
  { verdict := true
    st := zeroRecovery s n
    predictionMade := false
    predictorUpdated := false
    generatorUpdated := false
    appliedThreshold := none }

/-- The early return of AdapAD.is_anomalous taken when the lookback tail
of the ObservationWindow is shorter than lookback_len: append the
normalized sample and report not anomalous without touching any model. -/
def graceStep (cfg : Cfg) (s : St) (vals : List ℚ) : StepResult :=
  { verdict := false
    st := { s with observed := s.observed ++ [normalize_data cfg vals] }
    predictionMade := false
    predictorUpdated := false
    generatorUpdated := false
    appliedThreshold := none }

/-- Per-feature squared errors of one main-path step: the prediction from
the lookback tail of the observation window minus the normalized sample,
squared componentwise (lines 191-199 of src/main.py). -/
def stepErrors (cfg : Cfg) (m : Models) (s : St) (vals : List ℚ) : List ℚ :=
  ((m.predict (tailN cfg.lookback_len s.observed)).zip (normalize_data cfg vals)).map
    fun p => (p.1 - p.2) ^ 2

/-- The aggregate error of one main-path step: np.mean of the per-feature
squared errors. -/
def stepMse (cfg : Cfg) (m : Models) (s : St) (vals : List ℚ) : ℚ :=
  (stepErrors cfg m s vals).sum / ((stepErrors cfg m s vals).length : ℚ)

/-- The applied threshold of one main-path step (lines 213-221 of
src/main.py): once the error window holds at least lookback_len entries,
the generated value floored by the system threshold; the bare system
threshold otherwise. -/
def stepThreshold (cfg : Cfg) (m : Models) (s : St) : ℚ :=
  if cfg.lookback_len ≤ s.predictiveErrors.length then
    max (m.generate (tailN cfg.lookback_len s.predictiveErrors) cfg.system_threshold)
        cfg.system_threshold
  else
    cfg.system_threshold

/-- The main path of AdapAD.is_anomalous (lines 170-248 of src/main.py):
predict from the lookback tail, square the per-feature residuals, decide
first on the per-feature thresholds and then on the mean squared error
against the system threshold, compute the applied threshold, append to
the observation, prediction and error buffers (and to the threshold
buffer in the generator branch), update the forecast model
unconditionally and the generator model only when the applied threshold
exceeds the system threshold, and record an anomaly index after the
observation append when the verdict is anomalous. -/
def mainStep (cfg : Cfg) (m : Models) (s : St) (vals : List ℚ) : StepResult :=
  let normalized := normalize_data cfg vals
  let predicted := m.predict (tailN cfg.lookback_len s.observed)
  let errors := stepErrors cfg m s vals
  let mse := stepMse cfg m s vals
  let verdict := ((errors.zip cfg.paramThresholds).any fun p => decide (p.2 < p.1))
                 || decide (cfg.system_threshold < mse)
  let threshold := stepThreshold cfg m s
  { verdict := verdict
    st :=
      { observed := s.observed ++ [normalized]
        predicted := s.predicted ++ [predicted]
        thresholds :=
          if cfg.lookback_len ≤ s.predictiveErrors.length then
            s.thresholds ++ [threshold]
          else
            s.thresholds
        predictiveErrors := s.predictiveErrors ++ [mse]
        anomalies := if verdict then s.anomalies ++ [s.observed.length + 1] else s.anomalies }
    predictionMade := true
    predictorUpdated := true
    generatorUpdated := decide (cfg.system_threshold < threshold)
    appliedThreshold := some threshold }

/-- AdapAD.is_anomalous over one incoming sample, whose components are
none when the corresponding cell was absent or not numeric (the source
turns those into NaN): the missing-value gate, then the out-of-range
gate, then the cold-start branch, then the main path. -/
def is_anomalous (cfg : Cfg) (m : Models) (s : St) (observed_val : List (Option ℚ)) : StepResult :=
  if observed_val.any fun x => x.isNone then
    faultStep s observed_val.length
  else if rangeGateFails cfg (observed_val.map fun x => x.getD 0) then
    faultStep s (observed_val.map fun x => x.getD 0).length
  else if (tailN cfg.lookback_len s.observed).length < cfg.lookback_len then
    graceStep cfg s (observed_val.map fun x => x.getD 0)
  else
    mainStep cfg m s (observed_val.map fun x => x.getD 0)

/-- AdapAD.clean: prune the prediction, error and threshold buffers to the
lookback length; the observation window and the anomaly log are left
untouched. -/
def clean (cfg : Cfg) (s : St) : St :=
  { s with
    predicted := tailN cfg.lookback_len s.predicted,
    predictiveErrors := tailN cfg.lookback_len s.predictiveErrors,
    thresholds := tailN cfg.lookback_len s.thresholds }

/-- Buffer state right after AdapAD.__init__ (lines 94-97 of src/main.py):
empty prediction and anomaly buffers, the threshold buffer seeded with the
system threshold. -/
def initialBuffers (cfg : Cfg) : St :=
  { observed := []
    predicted := []
    thresholds := [cfg.system_threshold]
    predictiveErrors := []
    anomalies := [] }

/-- AdapAD.set_training_data: normalize every training row and load the
result as the observation window (the DataSubject of the missing
supporting_components module, modelled from the spec as the buffer holding
the normalized training rows). -/
def set_training_data (cfg : Cfg) (training : List (List ℚ)) (s : St) : St :=
  { s with observed := training.map (normalize_data cfg) }

/-- Modelled from the spec: AdapAD.train fills the prediction-error window
with the residuals of replaying the Forecast Model over the training
batch; those values depend only on the external model, so the window
contents are a parameter here. -/
def trainedState (cfg : Cfg) (training : List (List ℚ)) (trainErrors : List ℚ) : St :=
  { set_training_data cfg training (initialBuffers cfg) with predictiveErrors := trainErrors }

/-! Startup configuration, from src/config.py, and the constructor of
AdapAD, from src/main.py. -/

/-- Dynamically-typed Python values appearing in the configuration
dictionaries of src/config.py: numbers, the two-element value-range
tuples, and nested string-keyed dictionaries. -/
inductive PyVal where
  | num : ℚ → PyVal
  | rangePair : ℚ → ℚ → PyVal
  | table : List (String × PyVal) → PyVal

/-- Dictionary lookup returning none exactly when Python raises KeyError. -/
def dictFind (d : List (String × PyVal)) (k : String) : Option PyVal :=
  (d.find? fun p => p.1 == k).map fun p => p.2

/-- The parameter_config dictionary of src/config.py: per feature name,
a value_range tuple and a minimal_threshold number. -/
def parameter_config_py : List (String × PyVal) :=
  [("conductivity_conductivity",
      .table [("value_range", .rangePair 25 38), ("minimal_threshold", .num (1/25))]),
   ("pressure_pressure",
      .table [("value_range", .rangePair 299 321), ("minimal_threshold", .num (21/1000))]),
   ("pressure_temperature",
      .table [("value_range", .rangePair 5 17), ("minimal_threshold", .num (9/500))])]

/-- The value_range_config dictionary of src/config.py: the value_range
entry of every parameter_config entry, keyed by the same feature name. -/
def value_range_config_py : List (String × PyVal) :=
  parameter_config_py.map fun p =>
    (p.1,
     match p.2 with
     | .table kvs => (dictFind kvs "value_range").getD (.num 0)
     | v => v)

/-- The feature_columns list of src/config.py: the keys of
value_range_config. -/
def feature_columns : List String :=
  value_range_config_py.map fun p => p.1

/-- The data_source string of src/config.py. -/
def config_data_source : String := "LSTM-AE"

/-- The predictor_config dictionary built by config.init_config. -/
structure PredictorConfig where
  lookback_len : Nat
  prediction_len : Nat
  train_size : Nat

/-- config.init_config: the predictor configuration, the flat
value_range_config dictionary as second component, and the minimal
threshold 0.019. -/
def init_config : PredictorConfig × List (String × PyVal) × ℚ :=
  ({ lookback_len := 3, prediction_len := 1, train_size := 5 * 3 + 1 },
   value_range_config_py,
   19/1000)

/-- One iteration of the parameter-threshold loop of AdapAD.__init__
(lines 46-51 of src/main.py): subscript the parameter_config argument by
the data-source name (KeyError when the key is absent), subscript the
result by the feature name (KeyError when absent, TypeError when the
value is not a dictionary), then read minimal_threshold when that key is
present and fall back to the system threshold otherwise. -/
def lookupThreshold (parameter_config : List (String × PyVal)) (ds : String)
    (param : String) (sys : ℚ) : Except String ℚ :=
  match dictFind parameter_config ds with
  | none => .error ("KeyError: " ++ ds)
  | some (.table inner) =>
    match dictFind inner param with
    | none => .error ("KeyError: " ++ param)
    | some (.table entry) =>
      match dictFind entry "minimal_threshold" with
      | some (.num t) => .ok t
      | _ => .ok sys
    | some _ => .ok sys
  | some _ => .error ("TypeError: " ++ ds)

/-- Outcome of a completed AdapAD.__init__: the sensor range table, the
per-feature thresholds, and the predictor, generator and buffer objects
(represented by creation flags, since their construction follows the
threshold loop in the source). -/
structure InitOutcome where
  sensor_range : List (ℚ × ℚ)
  parameter_thresholds : List (String × ℚ)
  predictorCreated : Bool
  generatorCreated : Bool
  buffersCreated : Bool

/-- AdapAD.__init__ in source order: fill the sensor range table from
value_range_config, then run the parameter-threshold loop over
feature_columns (each iteration may raise, aborting construction), and
only then create the predictor, the generator and the prediction and
threshold buffers. -/
def adapADInit (parameter_config : List (String × PyVal)) (ds : String)
    (sys : ℚ) : Except String InitOutcome := do
  let sensor_range := value_range_config_py.map fun p =>
    match p.2 with
    | .rangePair lo hi => (lo, hi)
    | _ => ((0 : ℚ), (0 : ℚ))
  let thresholds ← feature_columns.foldlM
    (fun acc param => do
      let t ← lookupThreshold parameter_config ds param sys
      pure (acc ++ [(param, t)]))
    ([] : List (String × ℚ))
  pure
    { sensor_range := sensor_range
      parameter_thresholds := thresholds
      predictorCreated := true
      generatorCreated := true
      buffersCreated := true }

/-! Concrete instances used to exercise the definitions. -/

/-- The Austevoll configuration of src/config.py, with the intended
per-feature minimal thresholds 0.04, 0.021 and 0.018, lookback length 3
and system threshold 0.019 from config.init_config. -/
def austevollCfg : Cfg :=
  { ranges := [(25, 38), (299, 321), (5, 17)]
    paramThresholds := [1/25, 21/1000, 9/500]
    lookback_len := 3
    system_threshold := 19/1000 }

/-- A model pair that predicts the zero vector and generates a zero
threshold. -/
def mZero : Models :=
  { predict := fun _ => [0, 0, 0]
    generate := fun _ _ => 0 }

/-- A model pair that predicts exactly the normalized value of the clipped
out-of-range sample used against the range gate. -/
def mClip : Models :=
  { predict := fun _ => [1, 1/2, 1/2]
    generate := fun _ _ => 0 }

/-- A concrete post-training state: sixteen identical in-range training
rows (train_size = 16 of config.init_config) loaded as the observation
window, and thirteen training residuals in the error window. -/
def sPost : St :=
  trainedState austevollCfg (List.replicate 16 [30, 310, 11]) (List.replicate 13 (1/100))

/-! Helper lemmas. -/

/-- Length of the buffer tail: the most recent n elements, all of them
when fewer exist. -/
lemma tailN_length {α : Type} (n : Nat) (xs : List α) :
    (tailN n xs).length = min n xs.length := by
  simp only [tailN, List.length_drop]
  omega

/-- When the sample has no missing component, the range gate does not fire
and the observation window already holds at least lookback_len entries,
is_anomalous takes its main path. -/
lemma is_anomalous_main (cfg : Cfg) (m : Models) (s : St) (v : List (Option ℚ))
    (hmiss : (v.any fun x => x.isNone) = false)
    (hrange : rangeGateFails cfg (v.map fun x => x.getD 0) = false)
    (hlen : cfg.lookback_len ≤ s.observed.length) :
    is_anomalous cfg m s v = mainStep cfg m s (v.map fun x => x.getD 0) := by
  have hno : ¬ (tailN cfg.lookback_len s.observed).length < cfg.lookback_len := by
    rw [tailN_length]
    omega
  simp [is_anomalous, hmiss, hrange, hno]

/-- The anomaly log written by the main path: the post-append observation
window length when the verdict is anomalous, unchanged otherwise. -/
lemma mainStep_anomalies (cfg : Cfg) (m : Models) (s : St) (vals : List ℚ) :
    (mainStep cfg m s vals).st.anomalies =
      if (mainStep cfg m s vals).verdict then
        s.anomalies ++ [s.observed.length + 1]
      else
        s.anomalies := rfl

/-! Evaluation lemmas for the concrete scenario: the Austevoll
configuration, the post-training state sPost, and the streaming samples
with raw values 30, 310, 11 (all in range) and 1000, 310, 11 (first
component far out of range). -/

lemma lookback_le_sPost : austevollCfg.lookback_len ≤ sPost.observed.length := by decide

lemma range_30 :
    rangeGateFails austevollCfg
      (([some 30, some 310, some 11] : List (Option ℚ)).map fun x => x.getD 0) = false := by
  norm_num [rangeGateFails, is_inside_range, reverse_normalized_data, denormAt,
    normalize_data, normalizeAt, clip01, austevollCfg, List.range_succ]

lemma range_1000 :
    rangeGateFails austevollCfg
      (([some 1000, some 310, some 11] : List (Option ℚ)).map fun x => x.getD 0) = false := by
  norm_num [rangeGateFails, is_inside_range, reverse_normalized_data, denormAt,
    normalize_data, normalizeAt, clip01, austevollCfg, List.range_succ]

lemma range_1000_raw : rangeGateFails austevollCfg [1000, 310, 11] = false := by
  norm_num [rangeGateFails, is_inside_range, reverse_normalized_data, denormAt,
    normalize_data, normalizeAt, clip01, austevollCfg, List.range_succ]

lemma step_30 :
    is_anomalous austevollCfg mZero sPost [some 30, some 310, some 11] =
      mainStep austevollCfg mZero sPost
        (([some 30, some 310, some 11] : List (Option ℚ)).map fun x => x.getD 0) :=
  is_anomalous_main austevollCfg mZero sPost _ rfl range_30 lookback_le_sPost

lemma step_1000 :
    is_anomalous austevollCfg mClip sPost [some 1000, some 310, some 11] =
      mainStep austevollCfg mClip sPost
        (([some 1000, some 310, some 11] : List (Option ℚ)).map fun x => x.getD 0) :=
  is_anomalous_main austevollCfg mClip sPost _ rfl range_1000 lookback_le_sPost

lemma verdict_30 :
    (mainStep austevollCfg mZero sPost
      (([some 30, some 310, some 11] : List (Option ℚ)).map fun x => x.getD 0)).verdict
      = true := by
  norm_num [mainStep, stepErrors, stepMse, mZero, normalize_data, normalizeAt,
    clip01, austevollCfg]

lemma verdict_1000 :
    (mainStep austevollCfg mClip sPost
      (([some 1000, some 310, some 11] : List (Option ℚ)).map fun x => x.getD 0)).verdict
      = false := by
  norm_num [mainStep, stepErrors, stepMse, mClip, normalize_data, normalizeAt,
    clip01, austevollCfg]

lemma verdict_is_30 :
    (is_anomalous austevollCfg mZero sPost [some 30, some 310, some 11]).verdict = true := by
  rw [step_30]
  exact verdict_30

lemma anomalies_30 :
    (is_anomalous austevollCfg mZero sPost [some 30, some 310, some 11]).st.anomalies
      = [17] := by
  rw [step_30, mainStep_anomalies, verdict_30]
  norm_num [sPost, trainedState, set_training_data, initialBuffers]

lemma stepErrors_30 :
    stepErrors austevollCfg mZero sPost
      (([some 30, some 310, some 11] : List (Option ℚ)).map fun x => x.getD 0)
      = [25/169, 1/4, 1/4] := by
  norm_num [stepErrors, mZero, normalize_data, normalizeAt, clip01, austevollCfg]

lemma err_mem_30 :
    ((25/169 : ℚ), (1/25 : ℚ)) ∈
      (stepErrors austevollCfg mZero sPost
        (([some 30, some 310, some 11] : List (Option ℚ)).map fun x => x.getD 0)).zip
        austevollCfg.paramThresholds := by
  rw [stepErrors_30]
  norm_num [austevollCfg]

lemma err_lt_30 : (((25 : ℚ)/169, (1 : ℚ)/25)).2 < (((25 : ℚ)/169, (1 : ℚ)/25)).1 := by
  norm_num

/-! Claim theorems. -/

/-- Claim C7: a streaming sample with an absent or non-numeric component
makes is_anomalous return a forced anomalous verdict, record an anomaly
at the current observation window length, append a zero placeholder
vector as the observation, and invoke no model: no prediction is made,
neither model is updated, and the prediction, error and threshold buffers
are untouched; the step is a total local recovery, never fatal. -/
theorem missing_value_fault_recovery (cfg : Cfg) (m : Models) (s : St) (v : List (Option ℚ))
    (hmiss : (v.any fun x => x.isNone) = true) :
    (is_anomalous cfg m s v).verdict = true ∧
    (is_anomalous cfg m s v).st.observed = s.observed ++ [List.replicate v.length 0] ∧
    (is_anomalous cfg m s v).st.anomalies = s.anomalies ++ [s.observed.length] ∧
    (is_anomalous cfg m s v).predictionMade = false ∧
    (is_anomalous cfg m s v).predictorUpdated = false ∧
    (is_anomalous cfg m s v).generatorUpdated = false ∧
    (is_anomalous cfg m s v).st.predicted = s.predicted ∧
    (is_anomalous cfg m s v).st.predictiveErrors = s.predictiveErrors ∧
    (is_anomalous cfg m s v).st.thresholds = s.thresholds := by
  simp [is_anomalous, hmiss, faultStep, zeroRecovery]

/-- Witness for claim C7 at a concrete missing-value sample. -/
theorem missing_value_fault_recovery_witness :
    (is_anomalous austevollCfg mZero sPost [none, some 310, some 11]).verdict = true :=
  (missing_value_fault_recovery austevollCfg mZero sPost [none, some 310, some 11] rfl).1

/-- Claim C9: every call of is_anomalous grows the observation window by
exactly one entry, on every path, and clean prunes only the prediction,
error and threshold buffers, each down to the lookback length, leaving
the observation window and the anomaly log untouched. -/
theorem observation_window_monotone (cfg : Cfg) (m : Models) (s : St) (v : List (Option ℚ)) :
    (is_anomalous cfg m s v).st.observed.length = s.observed.length + 1 ∧
    (clean cfg s).observed = s.observed ∧
    (clean cfg s).anomalies = s.anomalies ∧
    (clean cfg s).predicted = tailN cfg.lookback_len s.predicted ∧
    (clean cfg s).predictiveErrors = tailN cfg.lookback_len s.predictiveErrors ∧
    (clean cfg s).thresholds = tailN cfg.lookback_len s.thresholds ∧
    (clean cfg s).predicted.length = min cfg.lookback_len s.predicted.length ∧
    (clean cfg s).predictiveErrors.length = min cfg.lookback_len s.predictiveErrors.length ∧
    (clean cfg s).thresholds.length = min cfg.lookback_len s.thresholds.length := by
  refine ⟨?_, by simp [clean], by simp [clean], by simp [clean], by simp [clean],
    by simp [clean], by simp [clean, tailN_length], by simp [clean, tailN_length],
    by simp [clean, tailN_length]⟩
  unfold is_anomalous
  split
  · simp [faultStep, zeroRecovery]
  · split
    · simp [faultStep, zeroRecovery]
    · split
      · simp [graceStep]
      · simp [mainStep]

/-- Claim C10: for every feature range with min below max, values inside
the range survive the normalize-denormalize round trip exactly, values
below the range normalize to the clipped 0, values above it to the
clipped 1, and denormalization is the exact algebraic inverse of the
unclipped scaling, applying no re-clipping. -/
theorem normalization_round_trip (r : ℚ × ℚ) (v : ℚ) (h : r.1 < r.2) :
    (r.1 ≤ v → v ≤ r.2 → denormAt r (normalizeAt r v) = v) ∧
    (v < r.1 → normalizeAt r v = 0) ∧
    (r.2 < v → normalizeAt r v = 1) ∧
    (∀ x : ℚ, denormAt r ((x - r.1) / (r.2 - r.1)) = x) := by
  obtain ⟨lo, hi⟩ := r
  simp only at h
  have hpos : (0 : ℚ) < hi - lo := by linarith
  have hne : hi - lo ≠ 0 := ne_of_gt hpos
  refine ⟨?_, ?_, ?_, ?_⟩
  · intro h1 h2
    have hq0 : (0 : ℚ) ≤ (v - lo) / (hi - lo) := div_nonneg (by linarith) (le_of_lt hpos)
    have hq1 : (v - lo) / (hi - lo) ≤ 1 := by
      rw [div_le_one hpos]
      linarith
    simp only [normalizeAt, clip01, denormAt, max_eq_left hq0, min_eq_left hq1]
    rw [div_mul_cancel₀ _ hne]
    ring
  · intro hv
    have hq : (v - lo) / (hi - lo) < 0 := div_neg_of_neg_of_pos (by linarith) hpos
    simp only [normalizeAt, clip01, max_eq_right (le_of_lt hq)]
    simp
  · intro hv
    have hq : (1 : ℚ) < (v - lo) / (hi - lo) := by
      rw [lt_div_iff₀ hpos]
      linarith
    simp only [normalizeAt, clip01, max_eq_left (le_trans zero_le_one (le_of_lt hq)),
      min_eq_right (le_of_lt hq)]
  · intro x
    simp only [denormAt]
    rw [div_mul_cancel₀ _ hne]
    ring

/-- Witness for claim C10 on the conductivity range: a value inside the
range round-trips exactly and a value above the range clips to 1. -/
theorem normalization_round_trip_witness :
    denormAt ((25 : ℚ), 38) (normalizeAt ((25 : ℚ), 38) 30) = 30 ∧
    normalizeAt ((25 : ℚ), 38) 1000 = 1 :=
  ⟨(normalization_round_trip ((25 : ℚ), 38) 30 (by decide)).1 (by decide) (by decide),
   (normalization_round_trip ((25 : ℚ), 38) 1000 (by decide)).2.2.1 (by decide)⟩

/-- Claim C1 is contradicted by the code: the out-of-range gate of
is_anomalous checks is_inside_range on the already normalized value, and
normalization clips into the unit interval, so the denormalized value the
gate sees always lands back inside the configured range and the gate can
never fire.  At the failing input, whose first component 1000 lies far
outside the conductivity range of 25 to 38, the gate reports the sample
in range, the step predicts and updates the forecast model, appends the
clipped normalized vector instead of a zero placeholder, records no
anomaly, and with a predictor matching the clipped value even returns a
not-anomalous verdict. -/
theorem out_of_range_gate_never_fires :
    (¬ ((austevollCfg.ranges.getD 0 (0, 0)).1 ≤ (1000 : ℚ) ∧
        (1000 : ℚ) ≤ (austevollCfg.ranges.getD 0 (0, 0)).2)) ∧
    rangeGateFails austevollCfg [1000, 310, 11] = false ∧
    is_inside_range austevollCfg (normalizeAt ((25 : ℚ), 38) 1000) 0 = true ∧
    (is_anomalous austevollCfg mClip sPost [some 1000, some 310, some 11]).verdict = false ∧
    (is_anomalous austevollCfg mClip sPost [some 1000, some 310, some 11]).predictionMade = true ∧
    (is_anomalous austevollCfg mClip sPost [some 1000, some 310, some 11]).predictorUpdated = true ∧
    (is_anomalous austevollCfg mClip sPost [some 1000, some 310, some 11]).st.observed =
      sPost.observed ++ [normalize_data austevollCfg [1000, 310, 11]] ∧
    (is_anomalous austevollCfg mClip sPost [some 1000, some 310, some 11]).st.anomalies =
      sPost.anomalies := by
  refine ⟨by norm_num [austevollCfg], range_1000_raw, ?_, ?_, ?_, ?_, ?_, ?_⟩
  · norm_num [is_inside_range, reverse_normalized_data, denormAt, normalizeAt, clip01,
      austevollCfg]
  · rw [step_1000]
    exact verdict_1000
  · rw [step_1000]
    rfl
  · rw [step_1000]
    rfl
  · rw [step_1000]
    simp [mainStep]
  · rw [step_1000, mainStep_anomalies, verdict_1000]
    simp

/-- Claim C2: with the tuple returned by config.init_config, whose second
component is the flat feature-keyed value_range_config, and with the
configured data source LSTM-AE, the constructor of AdapAD raises KeyError
at the first parameter-threshold lookup, so no predictor, generator or
buffer object is ever created. -/
theorem init_fails_with_flat_value_range_config :
    adapADInit init_config.2.1 config_data_source init_config.2.2 =
      Except.error ("KeyError: " ++ config_data_source) := rfl

/-- Claim C3 is contradicted by the code: on the very first
streaming-phase sample after training, with a valid in-range input, a
prediction is attempted and the verdict can be anomalous, because the
observation window was preloaded with the sixteen normalized training
rows, so its lookback tail is already full and the cold-start branch is
unreachable. -/
theorem cold_start_counterexample :
    (is_anomalous austevollCfg mZero sPost [some 30, some 310, some 11]).verdict = true ∧
    (is_anomalous austevollCfg mZero sPost [some 30, some 310, some 11]).predictionMade = true ∧
    sPost.observed.length = 16 ∧
    austevollCfg.lookback_len = 3 := by
  refine ⟨verdict_is_30, ?_, by decide, rfl⟩
  rw [step_30]
  rfl

/-- Claim C3 amended: after training there is no grace period at all,
because set_training_data loads the whole normalized training batch into
the observation window, so whenever the training batch holds at least
lookback_len rows, every streaming sample that passes the validity gate,
including each of the first lookback_len minus one, already attempts a
prediction, and its verdict follows the decision rule instead of being
constantly false. -/
theorem cold_start_amended (cfg : Cfg) (m : Models) (training : List (List ℚ))
    (trainErrors : List ℚ) (v : List (Option ℚ))
    (htrain : cfg.lookback_len ≤ training.length)
    (hmiss : (v.any fun x => x.isNone) = false)
    (hrange : rangeGateFails cfg (v.map fun x => x.getD 0) = false) :
    (is_anomalous cfg m (trainedState cfg training trainErrors) v).predictionMade = true := by
  have hlen : cfg.lookback_len ≤ (trainedState cfg training trainErrors).observed.length := by
    simpa [trainedState, set_training_data, initialBuffers] using htrain
  rw [is_anomalous_main cfg m (trainedState cfg training trainErrors) v hmiss hrange hlen]
  rfl

/-- Witness for the amended claim C3 on the concrete post-training
state. -/
theorem cold_start_amended_witness :
    (is_anomalous austevollCfg mZero
      (trainedState austevollCfg (List.replicate 16 [30, 310, 11]) (List.replicate 13 (1/100)))
      [some 30, some 310, some 11]).predictionMade = true :=
  cold_start_amended austevollCfg mZero (List.replicate 16 [30, 310, 11])
    (List.replicate 13 (1/100)) [some 30, some 310, some 11] (by decide) rfl range_30

/-- Claim C4: for every sample that reaches the decision step, the
verdict is anomalous exactly when some feature has its squared error
above its parameter threshold, regardless of the aggregate error, or,
failing that, when the mean of the per-feature squared errors exceeds
the system threshold. -/
theorem decision_rule_dual_criterion (cfg : Cfg) (m : Models) (s : St) (v : List (Option ℚ))
    (hmiss : (v.any fun x => x.isNone) = false)
    (hrange : rangeGateFails cfg (v.map fun x => x.getD 0) = false)
    (hlen : cfg.lookback_len ≤ s.observed.length) :
    ((is_anomalous cfg m s v).verdict = true ↔
      (∃ p ∈ (stepErrors cfg m s (v.map fun x => x.getD 0)).zip cfg.paramThresholds,
        p.2 < p.1) ∨
      cfg.system_threshold < stepMse cfg m s (v.map fun x => x.getD 0)) := by
  rw [is_anomalous_main cfg m s v hmiss hrange hlen]
  simp [mainStep, List.any_eq_true]

/-- Witness for claim C4: a concrete sample whose first feature error
exceeds its parameter threshold is flagged anomalous. -/
theorem decision_rule_dual_criterion_witness :
    (is_anomalous austevollCfg mZero sPost [some 30, some 310, some 11]).verdict = true := by
  have h := decision_rule_dual_criterion austevollCfg mZero sPost
    [some 30, some 310, some 11] rfl range_30 lookback_le_sPost
  exact h.mpr (Or.inl ⟨(25/169, 1/25), err_mem_30, err_lt_30⟩)

/-- Claim C5: for every sample that reaches the threshold-generation
step, the applied threshold is exactly the generated value floored by
the system threshold once the error window holds at least lookback_len
entries, is exactly the system threshold before that, and is never below
the system threshold. -/
theorem adaptive_threshold_floor (cfg : Cfg) (m : Models) (s : St) (v : List (Option ℚ))
    (hmiss : (v.any fun x => x.isNone) = false)
    (hrange : rangeGateFails cfg (v.map fun x => x.getD 0) = false)
    (hlen : cfg.lookback_len ≤ s.observed.length) :
    (is_anomalous cfg m s v).appliedThreshold = some (stepThreshold cfg m s) ∧
    cfg.system_threshold ≤ stepThreshold cfg m s ∧
    (cfg.lookback_len ≤ s.predictiveErrors.length →
      stepThreshold cfg m s =
        max (m.generate (tailN cfg.lookback_len s.predictiveErrors) cfg.system_threshold)
            cfg.system_threshold) ∧
    (s.predictiveErrors.length < cfg.lookback_len →
      stepThreshold cfg m s = cfg.system_threshold) := by
  refine ⟨?_, ?_, ?_, ?_⟩
  · rw [is_anomalous_main cfg m s v hmiss hrange hlen]
    rfl
  · unfold stepThreshold
    split
    · exact le_max_right _ _
    · exact le_refl _
  · intro hready
    simp [stepThreshold, hready]
  · intro hnot
    have h2 : ¬ cfg.lookback_len ≤ s.predictiveErrors.length := by omega
    simp [stepThreshold, h2]

/-- Witness for claim C5 on the concrete post-training state, whose
error window holds thirteen entries. -/
theorem adaptive_threshold_floor_witness :
    (is_anomalous austevollCfg mZero sPost [some 30, some 310, some 11]).appliedThreshold =
      some (stepThreshold austevollCfg mZero sPost) :=
  (adaptive_threshold_floor austevollCfg mZero sPost [some 30, some 310, some 11]
    rfl range_30 lookback_le_sPost).1

/-- Claim C6: for every sample that reaches the online-update step, the
forecast model update is invoked unconditionally, and the generator
update is invoked exactly when the applied threshold of this sample
exceeds the static system threshold. -/
theorem online_update_conditionality (cfg : Cfg) (m : Models) (s : St) (v : List (Option ℚ))
    (hmiss : (v.any fun x => x.isNone) = false)
    (hrange : rangeGateFails cfg (v.map fun x => x.getD 0) = false)
    (hlen : cfg.lookback_len ≤ s.observed.length) :
    (is_anomalous cfg m s v).predictorUpdated = true ∧
    ((is_anomalous cfg m s v).generatorUpdated = true ↔
      cfg.system_threshold < stepThreshold cfg m s) ∧
    (is_anomalous cfg m s v).appliedThreshold = some (stepThreshold cfg m s) := by
  rw [is_anomalous_main cfg m s v hmiss hrange hlen]
  refine ⟨rfl, ?_, rfl⟩
  simp [mainStep]

/-- Witness for claim C6: the forecast model is updated on a concrete
main-path sample while the generator, whose generated threshold does not
exceed the floor, is not. -/
theorem online_update_conditionality_witness :
    (is_anomalous austevollCfg mZero sPost [some 30, some 310, some 11]).predictorUpdated
      = true :=
  (online_update_conditionality austevollCfg mZero sPost [some 30, some 310, some 11]
    rfl range_30 lookback_le_sPost).1

/-- Claim C8 is contradicted by the code: on a decision-rule anomaly the
recorded index is the observation window length after the observation is
appended, one more than the length immediately before the append, while
the validity gate records the pre-append length. -/
theorem anomaly_index_counterexample :
    (is_anomalous austevollCfg mZero sPost [some 30, some 310, some 11]).st.anomalies = [17] ∧
    sPost.observed.length = 16 ∧
    sPost.anomalies = [] := by
  refine ⟨anomalies_30, by decide, rfl⟩

/-- Claim C8 amended: anomalies raised by the validity gate record the
observation window length immediately before the placeholder is
appended, but anomalies raised by the decision rule record the length
immediately after the observation is appended, that is the pre-append
length plus one. -/
theorem anomaly_index_amended (cfg : Cfg) (m : Models) (s : St) (v : List (Option ℚ))
    (hmiss : (v.any fun x => x.isNone) = false)
    (hrange : rangeGateFails cfg (v.map fun x => x.getD 0) = false)
    (hlen : cfg.lookback_len ≤ s.observed.length)
    (hverdict : (is_anomalous cfg m s v).verdict = true) :
    (is_anomalous cfg m s v).st.anomalies = s.anomalies ++ [s.observed.length + 1] := by
  rw [is_anomalous_main cfg m s v hmiss hrange hlen] at hverdict ⊢
  rw [mainStep_anomalies, hverdict]
  simp

/-- Witness for the amended claim C8 on a concrete decision-rule
anomaly. -/
theorem anomaly_index_amended_witness :
    (is_anomalous austevollCfg mZero sPost [some 30, some 310, some 11]).st.anomalies =
      sPost.anomalies ++ [sPost.observed.length + 1] :=
  anomaly_index_amended austevollCfg mZero sPost [some 30, some 310, some 11]
    rfl range_30 lookback_le_sPost verdict_is_30

end AdapAD
